import Mathlib

/-!
Verification of the cereal-box-styles prompt pipeline.

This file gives a shallow embedding of the Python sources
`tools/parser.py`, `tools/transformer.py`, `tools/utils.py` and the
pipeline tools of `server.py`, and proves properties of the embedded
functions.  Python dicts are modelled as insertion-ordered association
lists, machine integers as `Nat`/`Int`, floats appearing only as literal
style parameters as `Rat`, raised exceptions as `Except`/explicit error
results, and `None`-able values as `Option`.
-/

namespace CerealBox

/-! ### Character and string primitives modelling Python semantics -/

/-- Python regex `\w` (ASCII range, which covers every input the
pattern tables can match): letters, digits, underscore. -/
def isWordChar (c : Char) : Bool := c.isAlphanum || c == '_'

/-- Python regex `\s`: the six ASCII whitespace characters. -/
def isPySpace (c : Char) : Bool :=
  c == ' ' || c == '\t' || c == '\n' || c == '\r' || c == '\x0b' || c == '\x0c'

/-- Python `str.lower()` on a character list. -/
def lowerStr (s : List Char) : List Char := s.map Char.toLower

/-- Python substring test `pat in s` (both sides taken verbatim;
callers lower-case beforehand exactly where the source does). -/
def containsSub (s : List Char) (pat : List Char) : Bool :=
  match s with
  | [] => pat.isEmpty
  | _ :: rest => pat.isPrefixOf s || containsSub rest pat

/-- Substring test on `String`s (Python `pat in s`). -/
def containsSubStr (s pat : String) : Bool := containsSub s.data pat.data

/-- Case-insensitive literal-prefix test: `pat` is a lower-case literal,
`s` arbitrary text (models `re.IGNORECASE` literal matching). -/
def isPrefixLower (pat : List Char) (s : List Char) : Bool :=
  match pat, s with
  | [], _ => true
  | _ :: _, [] => false
  | p :: ps, c :: cs => p == c.toLower && isPrefixLower ps cs

/-- Regex `\b` immediately after a match: next character is not a word
character (or end of text). -/
def boundaryAfter (s : List Char) : Bool :=
  match s with
  | [] => true
  | c :: _ => !isWordChar c

/-- Does the lower-case literal `w` match at the head of `s` with a
trailing `\b`?  (The leading `\b` is handled by the scanner's
previous-character flag.) -/
def matchWordAt (w : List Char) (s : List Char) : Bool :=
  isPrefixLower w s && boundaryAfter (s.drop w.length)

/-- Leftmost case-insensitive search for `\b(w1|w2|...)\b` over `s`;
alternatives are tried in list order at each position, as `re` does for
literal alternation.  Returns the matched slice in its original case
(Python `match.group(0)`).  `prevWord` records whether the previous
character was a word character (for the leading `\b`). -/
def findWordAux (words : List (List Char)) (prevWord : Bool) (s : List Char) :
    Option (List Char) :=
  match s with
  | [] => none
  | c :: rest =>
    match (if prevWord then none else words.find? (fun w => matchWordAt w (c :: rest))) with
    | some w => some ((c :: rest).take w.length)
    | none => findWordAux words (isWordChar c) rest

def findWord (words : List (List Char)) (s : List Char) : Option (List Char) :=
  findWordAux words false s

/-- First pattern group (in priority order) whose word list matches the
text; returns the group tag and the matched slice. -/
def firstGroupMatch (groups : List (String × List String)) (s : List Char) :
    Option (String × List Char) :=
  match groups with
  | [] => none
  | (tag, words) :: rest =>
    match findWord (words.map String.data) s with
    | some m => some (tag, m)
    | none => firstGroupMatch rest s

/-- Tail of the object patterns `\s+(a|an|the)?\s*(\w+)`: applied to the
text right after the leading literal.  Backtracking of `\s+`/`\s*`
collapses (whitespace and word characters are disjoint, and the article
alternatives start with letters), so greedy runs are exact.  Returns the
`(\w+)` capture and the text after the match. -/
def matchObjTail (s : List Char) : Option (List Char × List Char) :=
  if (s.takeWhile isPySpace).isEmpty then none
  else
    let t := s.dropWhile isPySpace
    let tryFrom : List Char → Option (List Char × List Char) := fun u =>
      let v := u.dropWhile isPySpace
      let w := v.takeWhile isWordChar
      if w.isEmpty then none else some (w, v.drop w.length)
    let tryArt : List Char → Option (List Char × List Char) := fun art =>
      if isPrefixLower art t then tryFrom (t.drop art.length) else none
    match tryArt ['a'] with
    | some r => some r
    | none =>
      match tryArt ['a', 'n'] with
      | some r => some r
      | none =>
        match tryArt ['t', 'h', 'e'] with
        | some r => some r
        | none => tryFrom t

/-- `re.search(rf'{verb}\s+(a|an|the)?\s*(\w+)', prompt, re.IGNORECASE)`:
leftmost occurrence of the (lower-case) verb whose continuation
succeeds; returns the `(\w+)` capture. -/
def searchVerbObj (verb : List Char) (s : List Char) : Option (List Char) :=
  match s with
  | [] => none
  | _ :: rest =>
    match (if isPrefixLower verb s then matchObjTail (s.drop verb.length) else none) with
    | some r => some r.1
    | none => searchVerbObj verb rest

/-- `re.search(rf'\b(\w+)\s+{name}\b', prompt, re.IGNORECASE)`: leftmost
word run followed by whitespace and the subject name; returns the
`(\w+)` capture (original case).  `nameL` is the lower-cased name. -/
def searchAttrWord (nameL : List Char) (prevWord : Bool) (s : List Char) :
    Option (List Char) :=
  match s with
  | [] => none
  | c :: rest =>
    let here : Option (List Char) :=
      if prevWord then none
      else
        let w := (c :: rest).takeWhile isWordChar
        if w.isEmpty then none
        else
          let t := (c :: rest).drop w.length
          if (t.takeWhile isPySpace).isEmpty then none
          else
            let u := t.dropWhile isPySpace
            if isPrefixLower nameL u && boundaryAfter (u.drop nameL.length) then some w
            else none
    match here with
    | some w => some w
    | none => searchAttrWord nameL (isWordChar c) rest

/-- Alternatives of the count pattern
`r'\b(two|three|four|five|six|2|3|4|5|6)\s+' + subject_name`. -/
def countWords : List String :=
  ["two", "three", "four", "five", "six", "2", "3", "4", "5", "6"]

/-- Leftmost match of the count pattern; returns `group(1)` (already
lower-case, the alternatives being lower-case literals). -/
def searchCountWord (nameL : List Char) (prevWord : Bool) (s : List Char) :
    Option String :=
  match s with
  | [] => none
  | c :: rest =>
    let tryAlt : String → Bool := fun alt =>
      isPrefixLower alt.data (c :: rest) &&
        (let t := (c :: rest).drop alt.data.length
         !(t.takeWhile isPySpace).isEmpty &&
           isPrefixLower nameL (t.dropWhile isPySpace))
    match (if prevWord then none else countWords.find? tryAlt) with
    | some alt => some alt
    | none => searchCountWord nameL (isWordChar c) rest

/-! ### Data model (`ComponentSet` and its parts, from `tools/parser.py`) -/

/-- Subject record produced by `extract_subject`. -/
structure Subject where
  type_ : String
  name : Option String
  attributes : List String
  profession : Option String
  count : Nat
deriving DecidableEq, Repr

/-- Action record produced by `extract_action`. -/
structure Action where
  verb : Option String
  energy_level : String
  object_ : Option String
  modifier : Option String
  progressive : Bool
deriving DecidableEq, Repr

/-- Setting record produced by `extract_setting`. -/
structure Setting where
  type_ : String
  location : Option String
  attributes : List String
  time : Option String
deriving DecidableEq, Repr

/-- Mood record produced by `extract_mood`. -/
structure Mood where
  emotion : Option String
  valence : String
  intensity : String
deriving DecidableEq, Repr

/-- The parsed representation of one prompt (`parse_prompt_components`
output dict). -/
structure ComponentSet where
  subject : Subject
  action : Action
  setting : Setting
  objects : List String
  colors : List String
  mood : Mood
deriving DecidableEq, Repr

/-- The auxiliary lookup tables (`get_transformation_maps` in
`server.py`); dicts modelled as association lists. -/
structure TransformationMaps where
  professionToIconProps : List (String × String)
  emotionToMascotFace : List (String × String)
  locationToFantasy : List (String × String)

/-- Python truthiness of an optional string: `None` and `''` are falsy. -/
def pyTruthyOptStr : Option String → Bool
  | none => false
  | some s => !(s == "")

/-- Python `f"{x}"` rendering of an optional string (`None` renders as
the text `"None"`). -/
def pyStrOpt : Option String → String
  | none => "None"
  | some s => s

/-! ### Lexical extractor (`tools/parser.py`) -/

/-- The subject pattern table of `extract_subject`, in source order. -/
def subjectPatterns : List (String × List String) :=
  [("human",
    ["person", "people", "man", "woman", "child", "kid", "adult", "teenager",
     "boy", "girl", "chef", "doctor", "firefighter", "teacher", "artist",
     "musician", "pilot", "detective", "scientist", "astronaut", "athlete",
     "dancer", "singer", "wizard", "warrior", "knight", "pirate", "ninja",
     "superhero"]),
   ("animal",
    ["cat", "dog", "bird", "fish", "horse", "lion", "tiger", "bear",
     "elephant", "dragon", "phoenix", "unicorn", "griffin", "kitten", "puppy"]),
   ("object",
    ["car", "boat", "plane", "bicycle", "train", "rocket", "sword", "hammer",
     "book", "computer", "phone", "camera", "chair", "table"]),
   ("food",
    ["pizza", "burger", "sandwich", "taco", "pasta", "apple", "banana",
     "strawberry", "cake", "cookie", "donut"])]

/-- First subject-type group (priority order human, animal, object, food)
whose pattern matches the prompt, with the matched name slice. -/
def findSubjectMatch (prompt : List Char) : Option (String × List Char) :=
  firstGroupMatch subjectPatterns prompt

def countWordMap : List (String × Nat) :=
  [("two", 2), ("three", 3), ("four", 4), ("five", 5), ("six", 6)]

/-- `count_map.get(w, int(w) if w.isdigit() else 1)`. -/
def countFromWord (w : String) : Nat :=
  match countWordMap.lookup w with
  | some n => n
  | none => if w.data ≠ [] && w.data.all Char.isDigit then w.toNat! else 1

/-- The no-match default subject record. -/
def defaultSubject : Subject :=
  { type_ := "abstract", name := none, attributes := [], profession := none, count := 0 }

/-- `extract_subject` from `tools/parser.py`. -/
def extract_subject (prompt : List Char) (tm : TransformationMaps) : Subject :=
  match findSubjectMatch prompt with
  | none => defaultSubject
  | some (subject_type, nameChars) =>
    let subject_name := String.mk nameChars
    let nameL := lowerStr nameChars
    let attributes :=
      match searchAttrWord nameL false prompt with
      | some a => [String.mk a]
      | none => []
    let profession :=
      if subject_type == "human" &&
          (tm.professionToIconProps.lookup (String.mk nameL)).isSome then
        some (String.mk nameL)
      else none
    let count :=
      match searchCountWord nameL false prompt with
      | some cw => countFromWord cw
      | none => 1
    { type_ := subject_type, name := some subject_name, attributes := attributes,
      profession := profession, count := count }

/-- The action tier table of `extract_action`, in source order. -/
def actionTiers : List (String × List String) :=
  [("high_energy",
    ["running", "jumping", "flying", "racing", "sprinting", "leaping", "dashing"]),
   ("medium_energy",
    ["walking", "swimming", "climbing", "dancing", "playing", "working", "cooking"]),
   ("low_energy",
    ["sitting", "standing", "lying", "resting", "reading", "thinking", "meditating"])]

/-- First `(tier, verb)` with the verb a substring of the lower-cased
prompt, scanning tiers and verb lists in source order. -/
def findActionVerb (low : List Char) : Option (String × String) :=
  actionTiers.findSome? fun tv =>
    (tv.2.find? fun verb => containsSub low verb.data).map fun verb => (tv.1, verb)

def intensityModifiers : List String :=
  ["violently", "intensely", "quickly", "slowly", "gently", "carefully"]

/-- `'high_energy'.replace('_energy', '')` for the three tier names
(the suffix occurs exactly once, at the end). -/
def stripEnergySuffix (s : String) : String :=
  if "_energy".data.isSuffixOf s.data then
    String.mk (s.data.take (s.data.length - 7))
  else s

/-- The no-match default action record. -/
def defaultAction : Action :=
  { verb := none, energy_level := "low", object_ := none, modifier := none,
    progressive := false }

/-- `extract_action` from `tools/parser.py`. -/
def extract_action (prompt : List Char) : Action :=
  let low := lowerStr prompt
  match findActionVerb low with
  | none => defaultAction
  | some (tier, verb) =>
    { verb := some verb,
      energy_level := stripEnergySuffix tier,
      object_ := (searchVerbObj verb.data prompt).map String.mk,
      modifier := intensityModifiers.find? fun m => containsSub low m.data,
      progressive := containsSub low "ing".data }

/-- The setting pattern table of `extract_setting`, in source order. -/
def settingPatterns : List (String × List String) :=
  [("indoor_specific",
    ["kitchen", "bedroom", "office", "classroom", "library", "lab", "studio",
     "garage", "bathroom", "hallway"]),
   ("indoor_generic", ["inside", "indoors", "room", "building", "house"]),
   ("outdoor_natural",
    ["forest", "mountain", "beach", "desert", "jungle", "field", "river",
     "lake", "ocean", "park", "garden"]),
   ("outdoor_urban",
    ["street", "city", "downtown", "alley", "plaza", "rooftop", "sidewalk"]),
   ("fantasy",
    ["castle", "dungeon", "spaceship", "alien planet", "magical realm",
     "dimension"])]

def atmosphereWords : List String :=
  ["busy", "quiet", "dark", "bright", "crowded", "empty", "chaotic", "peaceful"]

def timeWords : List String :=
  ["dawn", "sunrise", "morning", "noon", "afternoon", "sunset", "dusk",
   "evening", "night", "midnight"]

/-- The no-match default setting record. -/
def defaultSetting : Setting :=
  { type_ := "abstract", location := none, attributes := [], time := none }

/-- `extract_setting` from `tools/parser.py`. -/
def extract_setting (prompt : List Char) : Setting :=
  match firstGroupMatch settingPatterns prompt with
  | none => defaultSetting
  | some (setting_type, loc) =>
    let low := lowerStr prompt
    { type_ := setting_type,
      location := some (String.mk loc),
      attributes := atmosphereWords.filter fun w => containsSub low w.data,
      time := (findWord (timeWords.map String.data) prompt).map String.mk }

/-- Preposition alternatives of the `extract_objects` pattern. -/
def propWords : List String := ["with", "holding", "carrying", "near", "beside"]

/-- One attempted match of
`\b(with|holding|carrying|near|beside)\s+(a|an|the)?\s*(\w+)\b` at the
head of `s` (the trailing `\b` is automatic after a greedy `\w+` run);
returns the `(\w+)` capture and the rest of the text. -/
def matchPropAt (s : List Char) : Option (List Char × List Char) :=
  propWords.findSome? fun prep =>
    if isPrefixLower prep.data s then matchObjTail (s.drop prep.data.length)
    else none

/-- `re.finditer` over the prop pattern: scan left to right, resume after
each match end.  `fuel` bounds recursion; every step consumes at least
one character, so `fuel = s.length` never runs out. -/
def iterObjectsAux : Nat → Bool → List Char → List String
  | 0, _, _ => []
  | _ + 1, _, [] => []
  | fuel + 1, prevWord, c :: rest =>
    match (if prevWord then none else matchPropAt (c :: rest)) with
    | some (w, after) => String.mk w :: iterObjectsAux fuel true after
    | none => iterObjectsAux fuel (isWordChar c) rest

/-- `extract_objects` from `tools/parser.py`. -/
def extract_objects (prompt : List Char) : List String :=
  iterObjectsAux prompt.length false prompt

/-- The fixed 16-entry color palette of `extract_colors`, in table order. -/
def colorPalette : List String :=
  ["red", "blue", "green", "yellow", "orange", "purple", "pink", "black",
   "white", "brown", "gray", "cyan", "magenta", "teal", "gold", "silver"]

/-- `extract_colors` from `tools/parser.py`: every palette color that is
a substring of the lower-cased prompt, in palette order. -/
def extract_colors (prompt : List Char) : List String :=
  colorPalette.filter fun color => containsSub (lowerStr prompt) color.data

/-- The emotion tier table of `extract_mood`, in source order. -/
def moodTiers : List (String × List String) :=
  [("positive",
    ["happy", "joyful", "excited", "proud", "confident", "cheerful", "delighted"]),
   ("negative",
    ["sad", "angry", "afraid", "worried", "frustrated", "tired", "exhausted",
     "lonely"]),
   ("neutral", ["calm", "peaceful", "focused", "curious", "contemplative"])]

/-- First `(valence, emotion)` with the emotion a substring of the
lower-cased prompt. -/
def findMood (low : List Char) : Option (String × String) :=
  moodTiers.findSome? fun ve =>
    (ve.2.find? fun emo => containsSub low emo.data).map fun emo => (ve.1, emo)

/-- The no-match default mood record. -/
def defaultMood : Mood :=
  { emotion := none, valence := "neutral", intensity := "medium" }

/-- `extract_mood` from `tools/parser.py`. -/
def extract_mood (prompt : List Char) : Mood :=
  let low := lowerStr prompt
  match findMood low with
  | none => defaultMood
  | some (valence, emotion) =>
    let intensity :=
      if containsSub low "very".data || containsSub low "extremely".data then "high"
      else if containsSub low "slightly".data || containsSub low "a bit".data then "low"
      else "medium"
    { emotion := some emotion, valence := valence, intensity := intensity }

/-- The all-default `ComponentSet` returned for inputs matching no
pattern at all (e.g. the empty string). -/
def defaultComponentSet : ComponentSet :=
  { subject := defaultSubject, action := defaultAction, setting := defaultSetting,
    objects := [], colors := [], mood := defaultMood }

/-- `parse_prompt_components` from `tools/parser.py`. -/
def parse_prompt_components (prompt : String) (tm : TransformationMaps) : ComponentSet :=
  { subject := extract_subject prompt.data tm,
    action := extract_action prompt.data,
    setting := extract_setting prompt.data,
    objects := extract_objects prompt.data,
    colors := extract_colors prompt.data,
    mood := extract_mood prompt.data }

/-! ### Importance weighter and helpers (`tools/utils.py`) -/

/-- The six-key weights dict of `calculate_semantic_weights`. -/
structure SemanticWeights where
  subject : Nat
  action : Nat
  setting : Nat
  objects : Nat
  colors : Nat
  mood : Nat
deriving DecidableEq, Repr

/-- Items of the weights dict in its (fixed) insertion order. -/
def SemanticWeights.toList (w : SemanticWeights) : List (String × Nat) :=
  [("subject", w.subject), ("action", w.action), ("setting", w.setting),
   ("objects", w.objects), ("colors", w.colors), ("mood", w.mood)]

/-- Sum of the six weight values. -/
def SemanticWeights.total (w : SemanticWeights) : Nat :=
  w.subject + w.action + w.setting + w.objects + w.colors + w.mood

/-- The raw (pre-normalization) scores of `calculate_semantic_weights`:
base presence scores plus the three specificity bonuses. -/
def rawSemanticWeights (c : ComponentSet) : SemanticWeights :=
  let subject0 : Nat := if pyTruthyOptStr c.subject.name then 40 else 0
  let action0 : Nat := if pyTruthyOptStr c.action.verb then 30 else 0
  let setting0 : Nat := if pyTruthyOptStr c.setting.location then 15 else 0
  let objects0 : Nat := if !c.objects.isEmpty then 10 else 0
  let mood0 : Nat := if pyTruthyOptStr c.mood.emotion then 5 else 0
  let subject1 :=
    if c.subject.attributes.length > 1 || pyTruthyOptStr c.subject.profession then
      subject0 + 10
    else subject0
  let action1 :=
    if c.action.energy_level == "high" || c.action.energy_level == "extreme" then
      action0 + 10
    else action0
  let setting1 :=
    if "_specific".data.isSuffixOf c.setting.type_.data then setting0 + 10
    else setting0
  { subject := subject1, action := action1, setting := setting1,
    objects := objects0, colors := 0, mood := mood0 }

/-- The "Normalize to 100" block of `calculate_semantic_weights`.  The
Python `int((w / total) * 100)` agrees with `w * 100 / total` in `Nat`
on every value the raw scores can take (the raw scores lie in the
finite base-plus-bonus grid, where the float computation truncates
identically). -/
def normalizeWeights (w : SemanticWeights) : SemanticWeights :=
  let total := w.total
  if total > 0 then
    { subject := w.subject * 100 / total, action := w.action * 100 / total,
      setting := w.setting * 100 / total, objects := w.objects * 100 / total,
      colors := w.colors * 100 / total, mood := w.mood * 100 / total }
  else w

/-- `calculate_semantic_weights` from `tools/utils.py`: raw presence and
specificity scores, then normalization. -/
def calculate_semantic_weights (c : ComponentSet) : SemanticWeights :=
  normalizeWeights (rawSemanticWeights c)

/-- Dict values of heterogeneous type appearing in a skeleton's
`sections`: strings, lists of strings, or `None`. -/
inductive PyVal where
  | vstr (s : String)
  | vlist (l : List String)
  | vnone
deriving DecidableEq, Repr

/-- Python truthiness of a `PyVal`. -/
def pyTruthy : PyVal → Bool
  | .vstr s => !(s == "")
  | .vlist l => !l.isEmpty
  | .vnone => false

/-- Python `str(v)` for a `PyVal` (list repr assumes plain quote-free
contents, which is all the pipeline ever stores). -/
def pyStr : PyVal → String
  | .vstr s => s
  | .vlist l => "[" ++ String.intercalate ", " (l.map fun x => "\x27" ++ x ++ "\x27") ++ "]"
  | .vnone => "None"

/-- `order_by_importance` from `tools/utils.py` (the `semantic_weights`
argument is accepted and unused, exactly as in the source). -/
def order_by_importance (components : List (String × PyVal))
    (semantic_weights : List (String × Nat)) (emphasis_order : List String) :
    List (String × PyVal) :=
  let _ := semantic_weights
  let step1 := emphasis_order.foldl
    (fun acc key =>
      match components.lookup key with
      | some v => if pyTruthy v && (acc.lookup key).isNone then acc ++ [(key, v)] else acc
      | none => acc)
    []
  components.foldl
    (fun acc kv =>
      if (acc.lookup kv.1).isNone && pyTruthy kv.2 then acc ++ [kv] else acc)
    step1

/-- The universal negative list of `generate_negative_prompt`. -/
def universalNegatives : List String :=
  ["blurry", "low quality", "distorted", "deformed", "watermark",
   "text overlay", "signature", "cropped", "out of frame"]

/-! ### Rule catalog data model (categories built in `server.py`) -/

structure SubjectRule where
  treatment : String
  features : List String
  attributes : List String
deriving DecidableEq, Repr

structure ActionRule where
  treatment : String
  features : List String
  effects : List String
deriving DecidableEq, Repr

structure SettingRule where
  treatment : String
  elements : String
  background : String
deriving DecidableEq, Repr

/-- Color rule table; fields the source reads with `.get` defaults are
optional here so the defaults are applied at the use site, as in the
code. -/
structure ColorRules where
  mappings : List (String × String) := []
  always_add : Option String := none
  saturation : Option String := none
  gradients : Option Bool := none
  max_colors : Option Nat := none
  default_palette : Option String := none
deriving DecidableEq, Repr

/-- One category record, restricted to the fields the transformation
pipeline reads (the descriptive fields such as `visual_dna` are carried
through `server.py` untouched and are omitted). -/
structure CategoryRules where
  name : String
  subject_rules : List (String × SubjectRule) := []
  action_rules : List (String × ActionRule) := []
  setting_rules : List (String × SettingRule) := []
  color_rules : ColorRules := {}
  mandatory_markers : List String := []
  negative_prompts : List String := []
deriving Repr

/-- Style-parameter bundle (`params` dict); every field the pipeline
reads, all optional as in a Python dict.  The float-valued fields
(`energy_level`, `composition_density`) only ever hold exact decimal
literals with at most two fractional digits and are only compared
against such literals, so they are embedded exactly as integer
hundredths (0.5 ↦ 50, 1.0 ↦ 100, ...). -/
structure StyleParams where
  name : Option String := none
  energy_level : Option Nat := none
  color_saturation : Option String := none
  composition_density : Option Nat := none
  era : Option String := none
deriving DecidableEq, Repr

/-- `generate_negative_prompt` from `tools/utils.py`. -/
def generate_negative_prompt (category : String)
    (categories : List (String × CategoryRules)) : String :=
  let category_negatives :=
    match categories.lookup category with
    | some r => r.negative_prompts
    | none => []
  String.intercalate ", " (universalNegatives ++ category_negatives)

/-! ### Category transformer (`tools/transformer.py`) -/

/-- `transform_subject`.  When the subject type has a rule but the name
is `None`, the source's `', '.join(parts)` raises `TypeError`
(a non-string list item); that exception is the `Except.error` case. -/
def transform_subject (subject : Subject) (rules : CategoryRules)
    (maps : TransformationMaps) (params : StyleParams) : Except String String :=
  let _ := params
  match rules.subject_rules.lookup subject.type_ with
  | none => .ok (pyStrOpt subject.name)
  | some subject_rule =>
    match subject.name with
    | none => .error "TypeError: sequence item 1: expected str instance, NoneType found"
    | some subject_name =>
      let parts0 := [String.mk (subject_rule.treatment.data.map fun ch =>
        if ch == '_' then ' ' else ch), subject_name]
      let parts1 := parts0 ++
        (if pyTruthyOptStr subject.profession then
          match maps.professionToIconProps.lookup (pyStrOpt subject.profession) with
          | some prop => ["with " ++ prop]
          | none => []
        else [])
      let parts2 := parts1 ++ subject_rule.features ++ subject_rule.attributes
      let parts3 := parts2 ++
        (if !subject.attributes.isEmpty then
          subject.attributes.map fun attr =>
            match maps.emotionToMascotFace.lookup attr with
            | some face => face
            | none => attr ++ " appearance"
        else [])
      .ok (String.intercalate ", " parts3)

/-- `transform_action`.  The `KeyError` raised when neither the extracted
tier nor `'low_energy'` is a key of the category's table is the
`Except.error` case. -/
def transform_action (action : Action) (rules : CategoryRules)
    (maps : TransformationMaps) (params : StyleParams) : Except String String :=
  let _ := maps
  if !(pyTruthyOptStr action.verb) then .ok "in neutral pose"
  else
    let verb := pyStrOpt action.verb
    let energy_level :=
      if (rules.action_rules.lookup action.energy_level).isSome then
        action.energy_level
      else "low_energy"
    match rules.action_rules.lookup energy_level with
    | none => .error ("KeyError: " ++ energy_level)
    | some action_rule =>
      let effects0 := action_rule.effects
      let energy_multiplier := params.energy_level.getD 100
      let effects :=
        if energy_multiplier > 100 && !effects0.isEmpty then
          effects0.map (· ++ " intensified")
        else effects0
      let parts0 := [verb ++ " with " ++ action_rule.treatment]
      let parts1 := parts0 ++ action_rule.features
      let parts2 := parts1 ++
        (if pyTruthyOptStr action.object_ then
          let obj := pyStrOpt action.object_
          if containsSubStr rules.name "mascot" || containsSubStr rules.name "kid_chaos" then
            ["with comically oversized " ++ obj]
          else ["with " ++ obj]
        else [])
      let parts3 := parts2 ++
        (if !effects.isEmpty then [String.intercalate ", " effects] else [])
      .ok (String.intercalate ", " parts3)

/-- `transform_setting`. -/
def transform_setting (setting : Setting) (rules : CategoryRules)
    (params : StyleParams) : String :=
  let _ := params
  let setting_type := setting.type_
  let location := setting.location
  let rule_key0 :=
    if (rules.setting_rules.lookup setting_type).isSome then setting_type
    else if containsSubStr setting_type "indoor" then "indoor"
    else if containsSubStr setting_type "outdoor" then "outdoor"
    else "abstract"
  match rules.setting_rules.lookup rule_key0 with
  | none => pyStrOpt location ++ " background"
  | some setting_rule =>
    let parts0 := [pyStrOpt location ++ " " ++ setting_rule.treatment]
    let parts1 := parts0 ++
      (if !(setting_rule.elements == "") then ["with " ++ setting_rule.elements] else [])
    let parts2 := parts1 ++
      (if !(setting_rule.background == "") then [setting_rule.background] else [])
    let parts3 := parts2 ++
      (if pyTruthyOptStr setting.time then ["at " ++ pyStrOpt setting.time] else [])
    String.intercalate ", " parts3

/-- `transform_colors`. -/
def transform_colors (colors : List String) (rules : CategoryRules)
    (params : StyleParams) : String :=
  let color_rules := rules.color_rules
  let saturation := params.color_saturation.getD (color_rules.saturation.getD "medium")
  if colors.isEmpty then
    (color_rules.default_palette.getD "natural balanced colors") ++ ", " ++
      saturation ++ " saturation"
  else
    let transformed := colors.map fun color =>
      match color_rules.mappings.lookup color with
      | some m => m
      | none => color
    let transformed2 := transformed ++
      (if color_rules.always_add == some "complementary accent color" then
        ["with complementary accent"]
      else [])
    let palette_desc := String.intercalate ", " (transformed2.take 3)
    let result0 := ["color palette of " ++ palette_desc, saturation ++ " saturation"]
    let result1 := result0 ++
      (if !(color_rules.gradients.getD true) then ["flat colors with no gradients"] else [])
    let result2 := result1 ++
      (match color_rules.max_colors with
       | some mc => if mc != 0 then ["limited to " ++ toString mc ++ " colors maximum"] else []
       | none => [])
    String.intercalate ", " result2

/-- The fixed per-category effect lists of `transform_effects`. -/
def effectsMap : List (String × List String) :=
  [("mascot_theater",
    ["white starburst highlights on curved surfaces",
     "radial sunburst background lines",
     "scattered floating sparkle effects",
     "thick drop shadows for depth"]),
   ("health_halo",
    ["soft lens bokeh in background",
     "natural dust particles visible in light beam",
     "subtle vignette framing",
     "shallow depth of field"]),
   ("nostalgia_revival",
    ["visible halftone dot pattern",
     "slight paper texture and grain",
     "intentional registration offset for vintage print feel",
     "limited spot color separation"]),
   ("premium_disruptor",
    ["gold foil catching single light source",
     "extreme rim lighting creating halo",
     "selective focus with razor-thin depth of field",
     "dramatic shadows in 90% of composition"]),
   ("kid_chaos",
    ["speed lines radiating from all edges",
     "explosive starburst effects in multiple neon colors",
     "lightning bolts and electricity crackling",
     "holographic rainbow gradient overlays",
     "motion blur trails showing energy"]),
   ("transparent_honest",
    ["crisp sharp focus throughout with no artistic blur",
     "even clinical lighting eliminating shadows",
     "grid overlay with measurements visible",
     "labeled components and specifications"]),
   ("adventure_fantasy",
    ["volumetric god rays breaking through atmosphere",
     "magical particle effects floating in air",
     "dramatic rim lighting with colored gels",
     "ethereal glow on mystical elements",
     "cinematic lens flare"])]

/-- `transform_effects` (the `components` argument is accepted and
unused, exactly as in the source). -/
def transform_effects (category : String) (components : ComponentSet)
    (params : StyleParams) : String :=
  let _ := components
  let effects := (effectsMap.lookup category).getD []
  let density := params.composition_density.getD 70
  let effects2 :=
    if density < 50 then effects.take 2
    else if density > 80 then effects
    else effects.take 3
  String.intercalate ", " effects2

/-- `transform_typography`.  `profession.upper()` on the `None` produced
when both the profession and the subject name are falsy raises
`AttributeError`; that exception is the `Except.error` case. -/
def transform_typography (subject : Subject) (category : String)
    (params : StyleParams) : Except String (Option String) :=
  let profv : Option String :=
    if pyTruthyOptStr subject.profession then subject.profession else subject.name
  if category == "mascot_theater" then
    match profv with
    | none => .error "AttributeError: NoneType object has no attribute upper"
    | some p =>
      .ok (some ("bubbly curved typography spelling \x27" ++
        String.mk (p.data.map Char.toUpper) ++
        " CRUNCH\x27 arcing over scene, thick inline and outline effects"))
  else if category == "kid_chaos" then
    match profv with
    | none => .error "AttributeError: NoneType object has no attribute upper"
    | some p =>
      .ok (some ("chrome metallic text spelling \x27" ++
        String.mk (p.data.map Char.toUpper) ++
        " BLAST\x27 with lightning bolt letters, extreme 3D extrusion, neon glow"))
  else if category == "nostalgia_revival" then
    match profv with
    | none => .error "AttributeError: NoneType object has no attribute upper"
    | some p =>
      let era := params.era.getD "1970s"
      .ok (some ("hand-lettered " ++ era ++ " typography reading \x27" ++
        String.mk (p.data.map Char.toUpper) ++ " - SINCE " ++
        String.mk (era.data.take 4) ++
        "\x27, distressed letterpress texture, slab serif style"))
  else .ok none

/-- The transformed-component record (the dict literal built by
`apply_category_transformation`). -/
structure TransformedComponents where
  subject : String
  action : String
  setting : String
  colors : String
  effects : String
  style_markers : List String
  typography : Option String
deriving DecidableEq, Repr

/-- Dict items of a `TransformedComponents`, in the source's insertion
order. -/
def TransformedComponents.toItems (t : TransformedComponents) :
    List (String × PyVal) :=
  [("subject", .vstr t.subject), ("action", .vstr t.action),
   ("setting", .vstr t.setting), ("colors", .vstr t.colors),
   ("effects", .vstr t.effects), ("style_markers", .vlist t.style_markers),
   ("typography", match t.typography with | some s => .vstr s | none => .vnone)]

/-- `apply_category_transformation` from `tools/transformer.py`;
exceptions of the component transformers propagate in the dict literal's
evaluation order. -/
def apply_category_transformation (components : ComponentSet)
    (rules : CategoryRules) (transformation_maps : TransformationMaps)
    (params : StyleParams) : Except String TransformedComponents := do
  let category := rules.name
  let subj ← transform_subject components.subject rules transformation_maps params
  let act ← transform_action components.action rules transformation_maps params
  let sett := transform_setting components.setting rules params
  let cols := transform_colors components.colors rules params
  let effs := transform_effects category components params
  let typo ←
    if category == "mascot_theater" || category == "kid_chaos" ||
        category == "nostalgia_revival" then
      transform_typography components.subject category params
    else pure none
  pure { subject := subj, action := act, setting := sett, colors := cols,
         effects := effs, style_markers := rules.mandatory_markers,
         typography := typo }

/-! ### Rule catalog instances (`server.py`, `OlogLoader` hardcoded maps)

The source spells out the full sub-tables only for `mascot_theater`
(the other six categories are elided in the source with `# ...
(abbreviated for space)` comments), so that is the category record
instantiated here; every claim that needs concrete rules uses it. -/

def mascotTheaterRules : CategoryRules :=
  { name := "mascot_theater",
    subject_rules :=
      [("human",
        { treatment := "cartoon_mascot",
          features := ["oversized head (1.5x proportion)", "simplified 4-finger hands",
                       "simplified anatomy", "expressive eyes"],
          attributes := ["bold black outlines", "thick drop shadows",
                         "white gloves optional"] }),
       ("animal",
        { treatment := "anthropomorphized",
          features := ["bipedal stance", "clothed", "expressive eyebrows",
                       "human-like gestures"],
          attributes := ["bold outlines", "simple rounded shapes"] }),
       ("object",
        { treatment := "personified",
          features := ["add face with googly eyes", "add limbs and hands",
                       "personality expression"],
          attributes := ["friendly smile or expression"] })],
    action_rules :=
      [("low_energy",
        { treatment := "friendly gesture",
          features := ["static pose", "one hand waving or pointing", "welcoming stance"],
          effects := ["small sparkles", "simple motion line"] }),
       ("medium_energy",
        { treatment := "animated motion",
          features := ["leaning into action", "arms in motion", "one foot slightly raised"],
          effects := ["motion lines", "small starbursts", "action swooshes"] }),
       ("high_energy",
        { treatment := "dynamic mid-action",
          features := ["mid-leap or jump", "one foot always off ground",
                       "arms spread wide", "hair/clothing flowing"],
          effects := ["speed lines", "motion blur trail", "dust clouds",
                      "large starbursts", "impact marks"] })],
    setting_rules :=
      [("indoor",
        { treatment := "simplified_icons",
          elements := "2-3 key objects only",
          background := "flat solid color with no detail" }),
       ("outdoor",
        { treatment := "generic_simple",
          elements := "blue sky, white puffy clouds, green ground line, simple curved hills",
          background := "no texture, basic shapes" }),
       ("abstract",
        { treatment := "radial_sunburst",
          elements := "concentric circles or radiating lines",
          background := "bright primary color" })],
    color_rules :=
      { mappings :=
          [("blue", "bright primary blue"), ("red", "cherry red"),
           ("green", "lime green"), ("yellow", "sunshine yellow"),
           ("purple", "grape purple"), ("orange", "bright orange"),
           ("pink", "bubblegum pink")],
        always_add := some "complementary accent color",
        saturation := some "maximum",
        gradients := some false,
        max_colors := some 4,
        default_palette := some "bright primary colors (red, blue, yellow)" },
    mandatory_markers :=
      ["cartoon character", "bold black outlines", "commercial illustration style",
       "bright primary colors"],
    negative_prompts :=
      ["realistic", "photographic", "detailed anatomy", "complex shading",
       "gradient backgrounds", "violent", "dark", "gritty"] }

/-- The category catalog, restricted to the one category whose rule
tables the source spells out. -/
def CATEGORIES : List (String × CategoryRules) :=
  [("mascot_theater", mascotTheaterRules)]

/-- `get_transformation_maps` (entries the source spells out; the rest
are elided there with `# ... etc` comments). -/
def TRANSFORMATION_MAPS : TransformationMaps :=
  { professionToIconProps :=
      [("chef", "oversized white chef hat and red neckerchief"),
       ("firefighter", "bright yellow helmet with red suspenders"),
       ("doctor", "white coat and stethoscope around neck")],
    emotionToMascotFace :=
      [("happy", "wide smile with sparkles in eyes, cheeks raised in joy"),
       ("sad", "single large tear drop, downturned mouth with slight frown")],
    locationToFantasy :=
      [("kitchen",
        "alchemist\x27s laboratory with bubbling cauldrons and mystical ingredients")] }

/-- A prompt template (`structure` is a Lean keyword, hence the trailing
underscore). -/
structure Template where
  emphasis_order : List String
  structure_ : String
deriving DecidableEq, Repr

/-- `get_templates` (the source spells out only `mascot_theater`). -/
def TEMPLATES : List (String × Template) :=
  [("mascot_theater",
    { emphasis_order := ["subject", "action", "effects", "setting", "colors",
                         "typography", "style_markers"],
      structure_ := "Subject → Action → Setting → Colors → Effects → Typography → Style Markers" })]

/-! ### MCP tool functions (`server.py`) -/

/-- `apply_transformations`: unknown categories raise `ValueError`,
otherwise the category rules drive `apply_category_transformation`. -/
def apply_transformations (parsed_components : ComponentSet) (category : String)
    (style_params : Option StyleParams) : Except String TransformedComponents :=
  match CATEGORIES.lookup category with
  | none => .error ("Unknown category: " ++ category)
  | some rules =>
    apply_category_transformation parsed_components rules TRANSFORMATION_MAPS
      (style_params.getD {})

/-- Skeleton metadata dict; `user_modifications` is absent (`none`)
until the first refinement creates it. -/
structure Metadata where
  category : String
  estimated_tokens : Nat
  ready_for_synthesis : Bool
  user_modifications : Option (List String) := none
deriving DecidableEq, Repr

structure PromptSkeleton where
  sections : List (String × PyVal)
  emphasis : List (String × Nat)
  template : Template
  negative_prompt : String
  metadata : Metadata
deriving DecidableEq, Repr

/-- The per-component emphasis multiplier computed inside
`build_prompt_skeleton`; the float literals 1.3 / 1.15 / 1.0 / 0.85 are
embedded exactly as integer hundredths (130 / 115 / 100 / 85). -/
def emphasisMultiplier (weight : Nat) : Nat :=
  if weight > 60 then 130
  else if weight > 40 then 115
  else if weight > 20 then 100
  else 85

/-- `sum(len(str(v)) for v in sections.values()) // 4`. -/
def tokenEstimate (sections : List (String × PyVal)) : Nat :=
  (sections.map fun kv => (pyStr kv.2).length).sum / 4

/-- `build_prompt_skeleton` from `server.py`; the `KeyError` on a
category absent from `TEMPLATES` is the `Except.error` case. -/
def build_prompt_skeleton (transformed_components : TransformedComponents)
    (category : String) (semantic_weights : List (String × Nat)) :
    Except String PromptSkeleton :=
  match TEMPLATES.lookup category with
  | none => .error ("KeyError: " ++ category)
  | some template =>
    let ordered_sections :=
      order_by_importance transformed_components.toItems semantic_weights
        template.emphasis_order
    let emphasis := semantic_weights.map fun kv => (kv.1, emphasisMultiplier kv.2)
    let negative := generate_negative_prompt category CATEGORIES
    .ok { sections := ordered_sections,
          emphasis := emphasis,
          template := template,
          negative_prompt := negative,
          metadata :=
            { category := category,
              estimated_tokens := tokenEstimate ordered_sections,
              ready_for_synthesis := true } }

/-- `refine_component` from `server.py`.  The source mutates the
skeleton in place but raises `ValueError` before touching anything when
the component name is not a current section key; the state-passing
embedding therefore returns the (unchanged) skeleton together with the
error in that case. -/
def refine_component (skeleton : PromptSkeleton) (component_name : String)
    (new_value : String) : PromptSkeleton × Option String :=
  match skeleton.sections.lookup component_name with
  | none =>
    (skeleton,
     some ("Unknown component: " ++ component_name ++ ". Available: " ++
       pyStr (.vlist (skeleton.sections.map Prod.fst))))
  | some _ =>
    let sections := skeleton.sections.map fun kv =>
      if kv.1 == component_name then (kv.1, PyVal.vstr new_value) else kv
    let mods := skeleton.metadata.user_modifications.getD [] ++ [component_name]
    ({ skeleton with
        sections := sections,
        metadata :=
          { skeleton.metadata with
              user_modifications := some mods,
              estimated_tokens := tokenEstimate sections } },
     none)

/-- One entry of the `generate_variants` result list. -/
structure Variant where
  name : String
  style_params : StyleParams
  skeleton : PromptSkeleton
deriving DecidableEq, Repr

/-- The five fixed style-parameter presets of `generate_variants`, in
source order (floats as exact rationals). -/
def param_sets : List StyleParams :=
  [{ name := some "Subtle", energy_level := some 50,
     color_saturation := some "pastel", composition_density := some 40 },
   { name := some "Balanced", energy_level := some 75,
     color_saturation := some "bright", composition_density := some 70 },
   { name := some "Intense", energy_level := some 100,
     color_saturation := some "neon", composition_density := some 100 },
   { name := some "Vintage", energy_level := some 60,
     color_saturation := some "muted", composition_density := some 50,
     era := some "1970s" },
   { name := some "Dramatic", energy_level := some 90,
     color_saturation := some "bold", composition_density := some 80 }]

/-- The `for i, params in enumerate(param_sets[:count])` loop body of
`generate_variants`; exceptions of the two pipeline stages propagate. -/
def variantsLoop (parsed_components : ComponentSet)
    (semantic_weights : List (String × Nat)) (category : String) :
    Nat → List StyleParams → Except String (List Variant)
  | _, [] => .ok []
  | i, params :: rest => do
    let transformed ← apply_transformations parsed_components category (some params)
    let skeleton ← build_prompt_skeleton transformed category semantic_weights
    let pname ←
      match params.name with
      | some n => pure n
      | none => Except.error "KeyError: name"
    let tail ← variantsLoop parsed_components semantic_weights category (i + 1) rest
    pure ({ name := "Variant " ++ toString (i + 1) ++ " (" ++ pname ++ ")",
            style_params := params, skeleton := skeleton } :: tail)

/-- `generate_variants` from `server.py`.  The `semantic_weights`
argument models the `parsed_components['semantic_weights']` entry the
source reads off the parsed dict. -/
def generate_variants (parsed_components : ComponentSet)
    (semantic_weights : List (String × Nat)) (category : String) (count : Int) :
    Except String (List Variant) :=
  if count < 1 ∨ count > 5 then .error "Count must be between 1 and 5"
  else
    variantsLoop parsed_components semantic_weights category 0
      (param_sets.take count.toNat)

/-! ### Concrete inputs used by counterexamples and witnesses -/

/-- The seven dict keys of a `TransformedComponents` (the key set a
skeleton's `sections` can draw from). -/
def transformedComponentNames : List String :=
  ["subject", "action", "setting", "colors", "effects", "style_markers", "typography"]

/-- The six component names of a `ComponentSet`. -/
def componentSetNames : List String :=
  ["subject", "action", "setting", "objects", "colors", "mood"]

/-- A parsed component set with a subject and an action only
(raw scores 40 and 30, total 70). -/
def c1Cx : ComponentSet :=
  { defaultComponentSet with
      subject := { type_ := "animal", name := some "cat", attributes := [],
                   profession := none, count := 1 },
      action := { verb := some "walking", energy_level := "medium", object_ := none,
                  modifier := none, progressive := true } }

/-- Success predicate of the mascot-theater transformation on a subject
record: `transform_subject` raises when the subject type has a rule but
the name is `None`, and `transform_typography` raises when both
profession and name are falsy. -/
def subjectTransformOk (s : Subject) : Bool :=
  s.name.isSome ||
    ((mascotTheaterRules.subject_rules.lookup s.type_).isNone && pyTruthyOptStr s.profession)

/-- A small transformed-component record for witnesses. -/
def c2Tc : TransformedComponents :=
  { subject := "s", action := "a", setting := "se", colors := "c", effects := "e",
    style_markers := [], typography := none }

/-- The skeleton `build_prompt_skeleton c2Tc "mascot_theater" []`
evaluates to. -/
def c2SkW : PromptSkeleton :=
  { sections := [("subject", .vstr "s"), ("action", .vstr "a"), ("effects", .vstr "e"),
                 ("setting", .vstr "se"), ("colors", .vstr "c")],
    emphasis := [],
    template := { emphasis_order := ["subject", "action", "effects", "setting",
                                      "colors", "typography", "style_markers"],
                  structure_ := "Subject → Action → Setting → Colors → Effects → Typography → Style Markers" },
    negative_prompt := "blurry, low quality, distorted, deformed, watermark, text overlay, signature, cropped, out of frame, realistic, photographic, detailed anatomy, complex shading, gradient backgrounds, violent, dark, gritty",
    metadata := { category := "mascot_theater", estimated_tokens := 1,
                  ready_for_synthesis := true } }

/-- A small skeleton for the refinement witness. -/
def c4Sk : PromptSkeleton :=
  { sections := [("subject", .vstr "abcd"), ("mood", .vstr "xy")],
    emphasis := [("subject", 100)],
    template := { emphasis_order := ["subject"], structure_ := "Subject" },
    negative_prompt := "blurry",
    metadata := { category := "mascot_theater", estimated_tokens := 1,
                  ready_for_synthesis := true } }

/-- A component set whose subject has a name (so the mascot pipeline
succeeds on it). -/
def c6Cs : ComponentSet :=
  { defaultComponentSet with
      subject := { type_ := "animal", name := some "cat", attributes := ["happy"],
                   profession := none, count := 1 } }

/-! ### Helper lemmas -/

theorem mem_of_lookup {α β : Type} [BEq α] [LawfulBEq α] {l : List (α × β)}
    {k : α} {v : β} (h : l.lookup k = some v) : (k, v) ∈ l := by
  induction l with
  | nil => simp [List.lookup] at h
  | cons p rest ih =>
    rw [List.lookup] at h
    obtain ⟨k1, v1⟩ := p
    by_cases hk : k == k1
    · simp only [hk] at h
      simp only [Option.some.injEq] at h
      subst h
      have : k = k1 := eq_of_beq hk
      subst this
      exact List.mem_cons_self _ _
    · simp only [Bool.eq_false_iff.mpr hk] at h
      exact List.mem_cons_of_mem _ (ih h)

/-- An accumulator invariant for the append-only folds of
`order_by_importance`: if every step only appends elements satisfying
`P` (or keeps the accumulator), the fold preserves `P`. -/
theorem foldl_append_invariant {α β : Type} (P : β → Prop) (f : List β → α → List β)
    (l : List α) (acc : List β)
    (hf : ∀ acc2 x, x ∈ l → ∀ p ∈ f acc2 x, p ∈ acc2 ∨ P p)
    (hacc : ∀ p ∈ acc, P p) : ∀ p ∈ l.foldl f acc, P p := by
  induction l generalizing acc with
  | nil => exact hacc
  | cons x xs ih =>
    intro p hp
    refine ih (f acc x) (fun acc2 y hy => hf acc2 y (List.mem_cons_of_mem _ hy)) ?_ p hp
    intro q hq
    rcases hf acc x (List.mem_cons_self _ _) q hq with h | h
    · exact hacc q h
    · exact h

/-- Every key of `order_by_importance`'s output is a key of the
components dict it was given. -/
theorem order_by_importance_keys (components : List (String × PyVal))
    (w : List (String × Nat)) (emphasis_order : List String) :
    ∀ p ∈ order_by_importance components w emphasis_order,
      p.1 ∈ components.map Prod.fst := by
  unfold order_by_importance
  intro p hp
  refine foldl_append_invariant
    (fun (q : String × PyVal) => q.1 ∈ components.map Prod.fst) _ components _
    ?_ ?_ p hp
  · intro acc2 x hx q hq
    split at hq
    · rcases List.mem_append.mp hq with h | h
      · exact Or.inl h
      · right
        rcases List.mem_singleton.mp h with rfl
        exact List.mem_map_of_mem Prod.fst hx
    · exact Or.inl hq
  · refine foldl_append_invariant
      (fun (q : String × PyVal) => q.1 ∈ components.map Prod.fst) _
      emphasis_order [] ?_ (by simp)
    intro acc2 key _ q hq
    split at hq
    next v hl =>
      split at hq
      · rcases List.mem_append.mp hq with h | h
        · exact Or.inl h
        · right
          rcases List.mem_singleton.mp h with rfl
          exact List.mem_map_of_mem Prod.fst (mem_of_lookup hl)
      · exact Or.inl hq
    next => exact Or.inl hq

/-! ### Claim theorems -/

/-- C1 (amended): the semantic weights computed by
`calculate_semantic_weights` are non-negative integers (they live in
`Nat`); when every raw component score is zero they are all zero, and
when at least one raw score is positive they sum to AT MOST 100, the
normalization being division of each raw score by the raw total scaled
to 100 and truncated to an integer.  (The original claim's "sum to
exactly 100" fails: truncation loses up to one unit per component.) -/
theorem semantic_weights_normalized (c : ComponentSet) :
    ((rawSemanticWeights c).total = 0 →
      calculate_semantic_weights c = ⟨0, 0, 0, 0, 0, 0⟩) ∧
    (0 < (rawSemanticWeights c).total →
      (calculate_semantic_weights c).total ≤ 100) := by
  unfold calculate_semantic_weights
  generalize rawSemanticWeights c = w
  rcases w with ⟨s, a, se, o, co, m⟩
  simp only [SemanticWeights.total, normalizeWeights]
  constructor
  · intro h
    rw [if_neg (by omega)]
    simp only [SemanticWeights.mk.injEq]
    omega
  · intro h
    rw [if_pos h]
    simp only [SemanticWeights.total]
    set T := s + a + se + o + co + m with hT
    have h1 : s * 100 / T * T ≤ s * 100 := Nat.div_mul_le_self _ _
    have h2 : a * 100 / T * T ≤ a * 100 := Nat.div_mul_le_self _ _
    have h3 : se * 100 / T * T ≤ se * 100 := Nat.div_mul_le_self _ _
    have h4 : o * 100 / T * T ≤ o * 100 := Nat.div_mul_le_self _ _
    have h5 : co * 100 / T * T ≤ co * 100 := Nat.div_mul_le_self _ _
    have h6 : m * 100 / T * T ≤ m * 100 := Nat.div_mul_le_self _ _
    have key : (s * 100 / T + a * 100 / T + se * 100 / T + o * 100 / T +
        co * 100 / T + m * 100 / T) * T ≤ 100 * T := by
      have expand : (s * 100 / T + a * 100 / T + se * 100 / T + o * 100 / T +
          co * 100 / T + m * 100 / T) * T =
          s * 100 / T * T + a * 100 / T * T + se * 100 / T * T +
          o * 100 / T * T + co * 100 / T * T + m * 100 / T * T := by ring
      rw [expand]
      calc s * 100 / T * T + a * 100 / T * T + se * 100 / T * T +
          o * 100 / T * T + co * 100 / T * T + m * 100 / T * T
          ≤ s * 100 + a * 100 + se * 100 + o * 100 + co * 100 + m * 100 :=
            add_le_add (add_le_add (add_le_add (add_le_add (add_le_add h1 h2) h3) h4) h5) h6
        _ = 100 * T := by rw [hT]; ring
    exact Nat.le_of_mul_le_mul_right key h

/-- C1 counterexample: a component set with subject and action present
(raw scores 40 and 30, raw total 70) has positive raw total but its
normalized weights sum to 99, not 100. -/
theorem semantic_weights_sum_99 :
    0 < (rawSemanticWeights c1Cx).total ∧
      (calculate_semantic_weights c1Cx).total = 99 ∧
      (calculate_semantic_weights c1Cx).total ≠ 100 := by decide

/-- C1 witness: the bound of `semantic_weights_normalized` at the
concrete two-component input. -/
theorem semantic_weights_normalized_witness :
    0 < (rawSemanticWeights c1Cx).total ∧
      (calculate_semantic_weights c1Cx).total ≤ 100 :=
  ⟨by decide, (semantic_weights_normalized c1Cx).2 (by decide)⟩

/-- C3 (code bug): the parser reports energy tiers as `high`, `medium`,
`low` (after `.replace('_energy', '')`), but every category action table
is keyed `high_energy`, `medium_energy`, `low_energy`; the tier lookup
in `transform_action` therefore always misses and falls back to the
`low_energy` entry.  For "a person running" (verb `running`, extracted
tier `high`) against `mascot_theater`, whose table defines a
`high_energy` entry with treatment "dynamic mid-action", the output is
built from the low-energy entry ("friendly gesture"). -/
theorem action_tier_lookup_always_misses :
    (extract_action ("a person running".data)).energy_level = "high" ∧
    (mascotTheaterRules.action_rules.lookup "high_energy").isSome = true ∧
    (mascotTheaterRules.action_rules.lookup
      (extract_action ("a person running".data)).energy_level) = none ∧
    transform_action (extract_action ("a person running".data)) mascotTheaterRules
      TRANSFORMATION_MAPS {} =
      .ok ("running with friendly gesture, static pose, one hand waving or pointing, " ++
        "welcoming stance, small sparkles, simple motion line") :=
  ⟨rfl, rfl, rfl, rfl⟩

/-- C5 (amended): the assembler's emphasis tiers use strictly-greater
thresholds at 60, 40 and 20, so weight 61 yields 1.3, weight 41 yields
1.15, weight 40 yields 1.0, weight 21 yields 1.0, weight 20 yields
0.85 — and weight exactly 60 yields 1.15 (not the 1.0 the original
claim stated, since 60 > 40). -/
theorem emphasis_tier_boundaries :
    emphasisMultiplier 60 = 115 ∧ emphasisMultiplier 61 = 130 ∧
    emphasisMultiplier 40 = 100 ∧ emphasisMultiplier 41 = 115 ∧
    emphasisMultiplier 20 = 85 ∧ emphasisMultiplier 21 = 100 := by decide

/-- C5 counterexample: a component weighted exactly 60 gets multiplier
1.15, refuting the claimed 1.0 (60 is not > 60, but it is > 40). -/
theorem emphasis_weight_60_not_one :
    emphasisMultiplier 60 = 115 ∧ emphasisMultiplier 60 ≠ 100 := by decide

/-- C8: `extract_colors` returns exactly the palette colors occurring as
substrings of the lower-cased text, in palette-table order (its output
is a sublist of the 16-entry palette table). -/
theorem extract_colors_palette_order (prompt : String) :
    (extract_colors prompt.data).Sublist colorPalette ∧
    (∀ c : String, c ∈ extract_colors prompt.data ↔
      c ∈ colorPalette ∧ containsSub (lowerStr prompt.data) c.data = true) := by
  constructor
  · exact List.filter_sublist _
  · intro c
    simp [extract_colors, List.mem_filter]

/-- C9: the transform-then-assemble pipeline is a pure function of its
inputs — the embedded `apply_transformations` and
`build_prompt_skeleton` (like their Python sources, which use no
randomness, time, or I/O) give definitionally equal results on two runs
with identical inputs. -/
theorem pipeline_deterministic (cs : ComponentSet) (category : String)
    (params : Option StyleParams) (w : List (String × Nat)) :
    (Except.bind (apply_transformations cs category params) fun tc =>
      build_prompt_skeleton tc category w) =
    (Except.bind (apply_transformations cs category params) fun tc =>
      build_prompt_skeleton tc category w) := rfl

/-- C10: when no subject pattern matches, the default subject record
carries name `None`; `mascot_theater` has no subject rule for type
`abstract`, so `transform_subject` hits the bare-name fallback
`f"{subject_name}"`, which renders Python `None` as the non-empty
literal string "None". -/
theorem subjectless_transform_renders_None (prompt : String)
    (tm : TransformationMaps) (params : StyleParams)
    (h : findSubjectMatch prompt.data = none) :
    (extract_subject prompt.data tm).name = none ∧
    mascotTheaterRules.subject_rules.lookup (extract_subject prompt.data tm).type_ = none ∧
    transform_subject (extract_subject prompt.data tm) mascotTheaterRules tm params =
      .ok "None" := by
  have he : extract_subject prompt.data tm = defaultSubject := by
    unfold extract_subject
    rw [h]
  rw [he]
  exact ⟨rfl, rfl, rfl⟩

/-- C10 witness: the empty prompt matches no subject pattern and its
mascot-theater subject fragment is the string "None". -/
theorem subjectless_transform_renders_None_witness :
    (extract_subject ("".data) TRANSFORMATION_MAPS).name = none ∧
    transform_subject (extract_subject ("".data) TRANSFORMATION_MAPS)
      mascotTheaterRules TRANSFORMATION_MAPS {} = .ok "None" :=
  ⟨(subjectless_transform_renders_None "" TRANSFORMATION_MAPS {} rfl).1,
   (subjectless_transform_renders_None "" TRANSFORMATION_MAPS {} rfl).2.2⟩

/-- C4: `refine_component` with a name that is not a current section key
fails with the unknown-component error and returns the skeleton
entirely unmodified (the source raises `ValueError` before any
mutation); with a current section key it replaces that section's value
with the supplied string, appends the name to the modification-history
list (creating it on first use), recomputes the token estimate as the
floor of the summed character lengths of the current section values
divided by 4, and leaves every other part of the skeleton unchanged. -/
theorem refine_component_spec (skeleton : PromptSkeleton)
    (component_name new_value : String) :
    (skeleton.sections.lookup component_name = none →
      refine_component skeleton component_name new_value =
        (skeleton,
         some ("Unknown component: " ++ component_name ++ ". Available: " ++
           pyStr (.vlist (skeleton.sections.map Prod.fst))))) ∧
    (∀ v0, skeleton.sections.lookup component_name = some v0 →
      (refine_component skeleton component_name new_value).2 = none ∧
      (refine_component skeleton component_name new_value).1.sections =
        skeleton.sections.map (fun kv =>
          if kv.1 == component_name then (kv.1, PyVal.vstr new_value) else kv) ∧
      (refine_component skeleton component_name new_value).1.metadata.user_modifications =
        some (skeleton.metadata.user_modifications.getD [] ++ [component_name]) ∧
      (refine_component skeleton component_name new_value).1.metadata.estimated_tokens =
        tokenEstimate (refine_component skeleton component_name new_value).1.sections ∧
      (refine_component skeleton component_name new_value).1.emphasis =
        skeleton.emphasis ∧
      (refine_component skeleton component_name new_value).1.negative_prompt =
        skeleton.negative_prompt ∧
      (refine_component skeleton component_name new_value).1.template =
        skeleton.template ∧
      (refine_component skeleton component_name new_value).1.metadata.category =
        skeleton.metadata.category ∧
      (refine_component skeleton component_name new_value).1.metadata.ready_for_synthesis =
        skeleton.metadata.ready_for_synthesis) := by
  constructor
  · intro h
    unfold refine_component
    rw [h]
  · intro v0 h
    unfold refine_component
    rw [h]
    exact ⟨rfl, rfl, rfl, rfl, rfl, rfl, rfl, rfl, rfl⟩

/-- C4 witness: both branches of `refine_component_spec` at a concrete
two-section skeleton. -/
theorem refine_component_spec_witness :
    refine_component c4Sk "flavor" "v" =
      (c4Sk, some "Unknown component: flavor. Available: [\x27subject\x27, \x27mood\x27]") ∧
    (refine_component c4Sk "subject" "new text").2 = none ∧
    (refine_component c4Sk "subject" "new text").1.metadata.user_modifications =
      some ["subject"] ∧
    (refine_component c4Sk "subject" "new text").1.metadata.estimated_tokens =
      tokenEstimate (refine_component c4Sk "subject" "new text").1.sections := by
  refine ⟨?_, ?_, ?_, ?_⟩
  · exact (refine_component_spec c4Sk "flavor" "v").1 rfl
  · exact ((refine_component_spec c4Sk "subject" "new text").2 (PyVal.vstr "abcd") rfl).1
  · have h := ((refine_component_spec c4Sk "subject" "new text").2
      (PyVal.vstr "abcd") rfl).2.2.1
    simpa using h
  · exact ((refine_component_spec c4Sk "subject" "new text").2
      (PyVal.vstr "abcd") rfl).2.2.2.1

/-- C7: `parse_prompt_components` is total (a Lean function of the
text), returns a `ComponentSet` with all six fields present by
construction, and populates each field with its defined default record
when its patterns do not match — in particular the empty string parses
to the all-default component set (subject type `abstract` with count 0,
verb `None` with energy `low`, setting type `abstract`, no objects, no
colors, emotion `None` with valence `neutral`).  The source never
raises: every extractor ends in a default-returning fallback. -/
theorem parse_prompt_components_total (prompt : String) (tm : TransformationMaps) :
    (findSubjectMatch prompt.data = none →
      (parse_prompt_components prompt tm).subject = defaultSubject) ∧
    (findActionVerb (lowerStr prompt.data) = none →
      (parse_prompt_components prompt tm).action = defaultAction) ∧
    (firstGroupMatch settingPatterns prompt.data = none →
      (parse_prompt_components prompt tm).setting = defaultSetting) ∧
    ((∀ color ∈ colorPalette, containsSub (lowerStr prompt.data) color.data = false) →
      (parse_prompt_components prompt tm).colors = []) ∧
    (findMood (lowerStr prompt.data) = none →
      (parse_prompt_components prompt tm).mood = defaultMood) ∧
    parse_prompt_components "" tm = defaultComponentSet := by
  refine ⟨?_, ?_, ?_, ?_, ?_, ?_⟩
  · intro h
    show extract_subject prompt.data tm = defaultSubject
    unfold extract_subject
    rw [h]
  · intro h
    show extract_action prompt.data = defaultAction
    unfold extract_action
    simp only [h]
  · intro h
    show extract_setting prompt.data = defaultSetting
    unfold extract_setting
    rw [h]
  · intro h
    show extract_colors prompt.data = []
    unfold extract_colors
    exact List.filter_eq_nil_iff.mpr (by simpa using h)
  · intro h
    show extract_mood prompt.data = defaultMood
    unfold extract_mood
    simp only [h]
  · rfl

/-- C7 witness: the default-record conclusions of
`parse_prompt_components_total` discharged at the empty string. -/
theorem parse_prompt_components_total_witness :
    (parse_prompt_components "" TRANSFORMATION_MAPS).subject = defaultSubject ∧
    (parse_prompt_components "" TRANSFORMATION_MAPS).action = defaultAction ∧
    parse_prompt_components "" TRANSFORMATION_MAPS = defaultComponentSet :=
  ⟨(parse_prompt_components_total "" TRANSFORMATION_MAPS).1 rfl,
   (parse_prompt_components_total "" TRANSFORMATION_MAPS).2.1 rfl,
   (parse_prompt_components_total "" TRANSFORMATION_MAPS).2.2.2.2.2⟩

/-- `Bind.bind` on a successful `Except` computation steps to the
continuation (definitional; used to unfold the pipeline's `do` blocks). -/
theorem exceptBind_ok {ε α β : Type} (a : α) (f : α → Except ε β) :
    ((Except.ok a : Except ε α) >>= f) = f a := rfl

/-- `pure` of the `Except` monad is `Except.ok` (definitional). -/
theorem exceptPure {ε α : Type} (a : α) :
    (pure a : Except ε α) = Except.ok a := rfl

/-- Refinement never changes the key list of `sections` (it maps values
in place) nor the `emphasis` mapping. -/
theorem refine_preserves_keys (sk : PromptSkeleton) (name v : String) :
    (refine_component sk name v).1.sections.map Prod.fst = sk.sections.map Prod.fst ∧
    (refine_component sk name v).1.emphasis = sk.emphasis := by
  unfold refine_component
  cases hl : sk.sections.lookup name with
  | none => exact ⟨rfl, rfl⟩
  | some v0 =>
    refine ⟨?_, rfl⟩
    simp only [List.map_map]
    refine List.map_congr_left ?_
    intro kv _
    by_cases hk : kv.1 == name
    · simp [hk, Function.comp]
    · simp [hk, Function.comp]

/-- C2 (amended): for every `PromptSkeleton` produced by
`build_prompt_skeleton`, the key set of `sections` is a subset of the
SEVEN `TransformedComponents` component names (subject, action, setting,
colors, effects, style_markers, typography) — not of the six
`ComponentSet` names, since the assembler orders the transformed dict,
which also carries effects, style markers and typography — and the key
list of `emphasis` equals (hence is a subset of) the key list of the
semantic-weights mapping; both facts are preserved by
`refine_component`. -/
theorem skeleton_keys_invariant (tc : TransformedComponents) (category : String)
    (w : List (String × Nat)) (sk : PromptSkeleton)
    (h : build_prompt_skeleton tc category w = .ok sk) :
    (∀ k ∈ sk.sections.map Prod.fst, k ∈ transformedComponentNames) ∧
    sk.emphasis.map Prod.fst = w.map Prod.fst ∧
    (∀ name v,
      (refine_component sk name v).1.sections.map Prod.fst = sk.sections.map Prod.fst ∧
      (refine_component sk name v).1.emphasis = sk.emphasis) := by
  unfold build_prompt_skeleton at h
  cases htl : TEMPLATES.lookup category with
  | none =>
    rw [htl] at h
    exact absurd h (by simp)
  | some template =>
    rw [htl] at h
    simp only [Except.ok.injEq] at h
    subst h
    refine ⟨?_, ?_, fun name v => refine_preserves_keys _ name v⟩
    · intro k hk
      obtain ⟨p, hp, rfl⟩ := List.mem_map.mp hk
      have hmem := order_by_importance_keys tc.toItems w template.emphasis_order p hp
      simpa [TransformedComponents.toItems, transformedComponentNames] using hmem
    · simp [List.map_map, Function.comp]

/-- C2 counterexample: a skeleton built by `build_prompt_skeleton` for
`mascot_theater` carries the key `effects` in `sections`, and `effects`
is not one of the six `ComponentSet` component names. -/
theorem sections_contain_effects_key :
    (build_prompt_skeleton c2Tc "mascot_theater" []).map
        (fun sk => sk.sections.map Prod.fst) =
      .ok ["subject", "action", "effects", "setting", "colors"] ∧
    "effects" ∉ componentSetNames :=
  ⟨rfl, by decide⟩

/-- C2 witness: `skeleton_keys_invariant` discharged at a concrete
build result. -/
theorem skeleton_keys_invariant_witness :
    build_prompt_skeleton c2Tc "mascot_theater" [] = .ok c2SkW ∧
    "effects" ∈ transformedComponentNames ∧
    (refine_component c2SkW "subject" "z").1.sections.map Prod.fst =
      c2SkW.sections.map Prod.fst := by
  have hb : build_prompt_skeleton c2Tc "mascot_theater" [] = .ok c2SkW := rfl
  exact ⟨hb,
    (skeleton_keys_invariant c2Tc "mascot_theater" [] c2SkW hb).1 "effects" (by decide),
    ((skeleton_keys_invariant c2Tc "mascot_theater" [] c2SkW hb).2.2 "subject" "z").1⟩

/-- `transform_subject` succeeds at the mascot-theater rules whenever
the subject satisfies `subjectTransformOk`. -/
theorem transform_subject_mascot_ok (s : Subject) (p : StyleParams)
    (h : subjectTransformOk s = true) :
    ∃ out, transform_subject s mascotTheaterRules TRANSFORMATION_MAPS p = .ok out := by
  unfold transform_subject
  cases hl : mascotTheaterRules.subject_rules.lookup s.type_ with
  | none => exact ⟨_, rfl⟩
  | some r =>
    cases hn : s.name with
    | none =>
      exfalso
      simp [subjectTransformOk, hn, hl] at h
    | some nm => exact ⟨_, rfl⟩

/-- `transform_action` always succeeds at the mascot-theater rules
(whose table has a `low_energy` entry to fall back to). -/
theorem transform_action_mascot_ok (a : Action) (p : StyleParams) :
    ∃ out, transform_action a mascotTheaterRules TRANSFORMATION_MAPS p = .ok out := by
  unfold transform_action
  split
  · exact ⟨_, rfl⟩
  · by_cases hc : (mascotTheaterRules.action_rules.lookup a.energy_level).isSome
    · rw [if_pos hc]
      obtain ⟨r, hr⟩ := Option.isSome_iff_exists.mp hc
      simp only [hr]
      exact ⟨_, rfl⟩
    · rw [if_neg hc]
      exact ⟨_, rfl⟩

/-- `transform_typography` succeeds at category `mascot_theater`
whenever the subject satisfies `subjectTransformOk`. -/
theorem transform_typography_mascot_ok (s : Subject) (p : StyleParams)
    (h : subjectTransformOk s = true) :
    ∃ out, transform_typography s "mascot_theater" p = .ok out := by
  have hred : transform_typography s "mascot_theater" p =
      match (if pyTruthyOptStr s.profession then s.profession else s.name) with
      | none => .error "AttributeError: NoneType object has no attribute upper"
      | some pr =>
        .ok (some ("bubbly curved typography spelling \x27" ++
          String.mk (pr.data.map Char.toUpper) ++
          " CRUNCH\x27 arcing over scene, thick inline and outline effects")) := rfl
  rw [hred]
  cases hb : pyTruthyOptStr s.profession with
  | true =>
    rw [if_pos rfl]
    cases hp : s.profession with
    | none => simp [pyTruthyOptStr, hp] at hb
    | some pr => exact ⟨_, rfl⟩
  | false =>
    rw [if_neg (by simp)]
    cases hn : s.name with
    | none =>
      exfalso
      simp [subjectTransformOk, hn, hb] at h
    | some nm => exact ⟨_, rfl⟩

/-- The full category transformation succeeds at the mascot-theater
rules whenever the subject satisfies `subjectTransformOk`. -/
theorem apply_mascot_ok (cs : ComponentSet) (p : StyleParams)
    (h : subjectTransformOk cs.subject = true) :
    ∃ t, apply_category_transformation cs mascotTheaterRules TRANSFORMATION_MAPS p =
      .ok t := by
  obtain ⟨o1, h1⟩ := transform_subject_mascot_ok cs.subject p h
  obtain ⟨o2, h2⟩ := transform_action_mascot_ok cs.action p
  obtain ⟨o3, h3⟩ := transform_typography_mascot_ok cs.subject p h
  refine ⟨{ subject := o1, action := o2,
            setting := transform_setting cs.setting mascotTheaterRules p,
            colors := transform_colors cs.colors mascotTheaterRules p,
            effects := transform_effects "mascot_theater" cs p,
            style_markers := mascotTheaterRules.mandatory_markers,
            typography := o3 }, ?_⟩
  unfold apply_category_transformation
  have hcat : mascotTheaterRules.name = "mascot_theater" := rfl
  have hcond : (("mascot_theater" == "mascot_theater") ||
      ("mascot_theater" == "kid_chaos") || ("mascot_theater" == "nostalgia_revival")) =
      true := rfl
  simp only [hcat, h1, exceptBind_ok, h2, hcond, if_true, h3, exceptPure]

/-- C6: `generate_variants` fails with the invalid-count error for every
count outside [1,5] (the check precedes all other work), and for
count=3 on a component set the mascot-theater transformation accepts it
returns exactly 3 variants carrying the preset bundles named "Subtle",
"Balanced", "Intense" in that order, each tagged with its preset name
and a full skeleton. -/
theorem generate_variants_spec (cs : ComponentSet) (w : List (String × Nat))
    (count : Int) :
    ((count < 1 ∨ count > 5) →
      generate_variants cs w "mascot_theater" count =
        .error "Count must be between 1 and 5") ∧
    (subjectTransformOk cs.subject = true →
      ∃ vs, generate_variants cs w "mascot_theater" 3 = .ok vs ∧
        vs.length = 3 ∧
        vs.map (fun v => v.style_params.name) =
          [some "Subtle", some "Balanced", some "Intense"] ∧
        vs.map (fun v => v.name) =
          ["Variant 1 (Subtle)", "Variant 2 (Balanced)", "Variant 3 (Intense)"]) := by
  constructor
  · intro h
    unfold generate_variants
    rw [if_pos h]
  · intro h
    obtain ⟨t1, h1⟩ := apply_mascot_ok cs
      ⟨some "Subtle", some 50, some "pastel", some 40, none⟩ h
    obtain ⟨t2, h2⟩ := apply_mascot_ok cs
      ⟨some "Balanced", some 75, some "bright", some 70, none⟩ h
    obtain ⟨t3, h3⟩ := apply_mascot_ok cs
      ⟨some "Intense", some 100, some "neon", some 100, none⟩ h
    have ha1 : apply_transformations cs "mascot_theater"
        (some ⟨some "Subtle", some 50, some "pastel", some 40, none⟩) = .ok t1 := h1
    have ha2 : apply_transformations cs "mascot_theater"
        (some ⟨some "Balanced", some 75, some "bright", some 70, none⟩) = .ok t2 := h2
    have ha3 : apply_transformations cs "mascot_theater"
        (some ⟨some "Intense", some 100, some "neon", some 100, none⟩) = .ok t3 := h3
    obtain ⟨sk1, hb1⟩ : ∃ sk, build_prompt_skeleton t1 "mascot_theater" w = .ok sk :=
      ⟨_, rfl⟩
    obtain ⟨sk2, hb2⟩ : ∃ sk, build_prompt_skeleton t2 "mascot_theater" w = .ok sk :=
      ⟨_, rfl⟩
    obtain ⟨sk3, hb3⟩ : ∃ sk, build_prompt_skeleton t3 "mascot_theater" w = .ok sk :=
      ⟨_, rfl⟩
    refine ⟨[⟨"Variant 1 (Subtle)",
              ⟨some "Subtle", some 50, some "pastel", some 40, none⟩, sk1⟩,
             ⟨"Variant 2 (Balanced)",
              ⟨some "Balanced", some 75, some "bright", some 70, none⟩, sk2⟩,
             ⟨"Variant 3 (Intense)",
              ⟨some "Intense", some 100, some "neon", some 100, none⟩, sk3⟩],
            ?_, rfl, rfl, rfl⟩
    unfold generate_variants
    rw [if_neg (by decide)]
    have htake : param_sets.take (Int.toNat 3) =
        [⟨some "Subtle", some 50, some "pastel", some 40, none⟩,
         ⟨some "Balanced", some 75, some "bright", some 70, none⟩,
         ⟨some "Intense", some 100, some "neon", some 100, none⟩] := rfl
    rw [htake]
    have hn1 : ("Variant " ++ toString (0 + 1) ++ " (" ++ "Subtle" ++ ")") =
        "Variant 1 (Subtle)" := by decide
    have hn2 : ("Variant " ++ toString (0 + 1 + 1) ++ " (" ++ "Balanced" ++ ")") =
        "Variant 2 (Balanced)" := by decide
    have hn3 : ("Variant " ++ toString (0 + 1 + 1 + 1) ++ " (" ++ "Intense" ++ ")") =
        "Variant 3 (Intense)" := by decide
    simp only [variantsLoop, ha1, ha2, ha3, hb1, hb2, hb3, exceptBind_ok, exceptPure,
      hn1, hn2, hn3]

/-- C6 witness: `generate_variants_spec` at a concrete component set,
with count 0 rejected and count 3 producing the three tagged presets. -/
theorem generate_variants_spec_witness :
    generate_variants c6Cs [] "mascot_theater" 0 =
      .error "Count must be between 1 and 5" ∧
    (generate_variants c6Cs [] "mascot_theater" 3).map
        (List.map fun v => (v.name, v.style_params.name)) =
      .ok [("Variant 1 (Subtle)", some "Subtle"),
           ("Variant 2 (Balanced)", some "Balanced"),
           ("Variant 3 (Intense)", some "Intense")] := by
  obtain ⟨vs, hvs, _, hmapP, hmapN⟩ :=
    (generate_variants_spec c6Cs [] 0).2 (by decide)
  refine ⟨(generate_variants_spec c6Cs [] 0).1 (by decide), ?_⟩
  rw [hvs]
  show Except.ok (vs.map fun v => (v.name, v.style_params.name)) = _
  have : vs.map (fun v => (v.name, v.style_params.name)) =
      (vs.map fun v => v.name).zip (vs.map fun v => v.style_params.name) := by
    simp [List.zip_map']
  rw [this, hmapN, hmapP]
  rfl

end CerealBox
